import Mathlib

set_option maxHeartbeats 1000000

/-!
Shallow embedding of the CardioVision heart-sound analysis pipeline
(src/heart_api.py).  Samples and probabilities are modeled as rationals;
a possibly non-finite IEEE value (NaN or infinity, e.g. the result of a
zero division with numpy warnings suppressed) is modeled as the value
none of an Option type.  External library numerics (librosa loading and
resampling, the scipy Butterworth filter, the Hilbert transform, scipy
find_peaks, the librosa MFCC matrix, the pickled scaler and classifier,
and matplotlib PNG encoding) are opaque parameters collected in the
structure Externals; every piece of logic written in the repository itself
(thresholds, slicing, control flow, the figure contents drawn by the
plotting code, and the result record) is embedded explicitly.
-/

/-- A finite float sample is some q; none models a non-finite IEEE float
(NaN or infinity), as produced for instance by dividing by zero. -/
abbrev F := Option ℚ

/-- Kinds of Python exceptions the embedded code paths can raise. -/
inductive PyError where
  | nameError
  | valueError
  | indexError
  deriving DecidableEq, Repr

/-- Outcome of a Python call: an exception or a returned value. -/
inductive PyResult (α : Type) where
  | raised (e : PyError)
  | returned (v : α)
  deriving DecidableEq, Repr

/-- Outcome of analyze_heart_sound: an exception, the early error
dictionary from line 101, or the result dictionary from lines 199-207. -/
inductive StageOut (α : Type) where
  | raised (e : PyError)
  | errorDict (msg : String)
  | ok (v : α)
  deriving DecidableEq, Repr

/-- Mirrors np.max on a one-dimensional array of finite floats: none for
the empty array, where numpy raises ValueError, and otherwise the running
maximum computed by a left fold. -/
def np_maxQ : List ℚ → Option ℚ
  | [] => none
  | x :: xs => some (xs.foldl max x)

/-- Mirrors np.max on an array that may hold non-finite values: any NaN
poisons the maximum.  The empty case, where numpy raises, is collapsed to
none here because the pipeline only applies it to nonempty signals. -/
def np_maxF (l : List F) : F :=
  match np_maxQ (l.filterMap id) with
  | none => none
  | some m => if l.all (fun x => x.isSome) then some m else none

/-- Mirrors np.mean on a list of finite floats.  The empty case (numpy
returns NaN with a suppressed warning) yields 0 / 0 = 0 here; every call
site in the pipeline guards nonemptiness before relying on the value. -/
def np_mean (xs : List ℚ) : ℚ := xs.sum / xs.length

/-- Mirrors np.mean on an array that may hold non-finite values: NaN in,
NaN out, and the empty mean is NaN. -/
def np_mean_opt (l : List F) : F :=
  if l.all (fun x => x.isSome) && !l.isEmpty then
    some ((l.filterMap id).sum / l.length)
  else none

/-- Mirrors np.diff: successive differences of a one-dimensional array. -/
def np_diff (xs : List ℚ) : List ℚ :=
  (xs.zip xs.tail).map (fun p => p.2 - p.1)

/-- Mirrors ndarray.flatten on a matrix stored as a list of rows. -/
def np_flatten (m : List (List ℚ)) : List ℚ := m.flatten

/-- Python slicing xs[a:b] for nonnegative bounds. -/
def py_slice {α : Type} (xs : List α) (a b : ℕ) : List α :=
  (xs.drop a).take (b - a)

/-- Scalar float division: a zero divisor produces a non-finite value
(NaN or infinity) rather than an exception, numpy warnings being
suppressed at line 12 of the source. -/
def fdiv (x m : ℚ) : F := if m = 0 then none else some (x / m)

/-- Round half to even of a rational to an integer, the rounding used by
the Python built-in round. -/
def round_half_even (x : ℚ) : ℤ :=
  let f := ⌊x⌋
  let r := x - f
  if r < 1/2 then f
  else if 1/2 < r then f + 1
  else if f % 2 = 0 then f else f + 1

/-- Mirrors the Python built-in round(x, ndigits) on an exact value. -/
def py_round (x : ℚ) (ndigits : ℕ) : ℚ :=
  (round_half_even (x * 10 ^ ndigits) : ℚ) / 10 ^ ndigits

/-- Source lines 43-55: heart-rate classification table. -/
def classify_hr_only (hr : ℚ) : String × String :=
  if hr < 50 then ("Severe Bradycardia", "red")
  else if 50 ≤ hr ∧ hr < 60 then ("Mild Bradycardia", "orange")
  else if 60 ≤ hr ∧ hr ≤ 100 then ("Normal Heart Rate", "green")
  else if 100 < hr ∧ hr ≤ 120 then ("Mild Tachycardia", "orange")
  else if 120 < hr ∧ hr ≤ 150 then ("Moderate Tachycardia", "red")
  else ("Severe Tachycardia", "darkred")

/-- Source line 103: hr = 60 / np.mean(np.diff(peaks) / sr). -/
def heart_rate_of (peaks : List ℕ) (sr : ℚ) : ℚ :=
  60 / np_mean ((np_diff (peaks.map (fun p => (Nat.cast p : ℚ)))).map (fun d => d / sr))

/-- Source lines 106-108: cycles.append(filtered[peaks[i] : peaks[i+2]])
for i in range(len(peaks) - 2). -/
def build_cycles (filtered : List F) (peaks : List ℕ) : List (List F) :=
  (List.range (peaks.length - 2)).map
    (fun i => py_slice filtered (peaks.getD i 0) (peaks.getD (i + 2) 0))

/-- Source lines 106-109: cycle_times.append((peaks[i]/sr, peaks[i+2]/sr))
for i in range(len(peaks) - 2). -/
def build_cycle_times (peaks : List ℕ) (sr : ℚ) : List (ℚ × ℚ) :=
  (List.range (peaks.length - 2)).map
    (fun i => ((peaks.getD i 0 : ℚ) / sr, (peaks.getD (i + 2) 0 : ℚ) / sr))

/-- Source lines 39-40: keep only the first max_len MFCC frames when the
natural frame count exceeds the cap, otherwise right-pad every row with
zero frames up to the cap.  The frame count shape[1] is the common row
length of the rectangular matrix. -/
def fix_frames (mfcc : List (List ℚ)) (max_len : ℕ) : List (List ℚ) :=
  let shape1 := (mfcc.headD []).length
  if shape1 > max_len then mfcc.map (fun row => row.take max_len)
  else mfcc.map (fun row => row ++ List.replicate (max_len - shape1) 0)

/-- Source lines 63-68: bar color of the timeline plot per probability. -/
def timeline_color (prob : ℚ) : String :=
  if prob < 30/100 then "green"
  else if prob < 45/100 then "orange"
  else "red"

/-- Contents of the timeline figure drawn by plot_sound_timeline: each
bar is (left, width, color) as passed to barh at line 70, plus the x
limit.  The legend, ticks and titles are fixed text shared by every
timeline figure and carry no per-run data. -/
structure TimelineFigData where
  bars : List (ℚ × ℚ × String)
  duration : ℚ
  deriving DecidableEq, Repr

/-- Contents of the waveform figure drawn at lines 133-186: the plotted
series, the per-peak dashed lines and S1/S2 text labels, the colored
systole/diastole spans, and the heart-rate text box.  Fixed legend and
title text is omitted, as it is identical for every run. -/
structure WaveFigData where
  t : List ℚ
  signal : List F
  peak_lines : List ℚ
  peak_labels : List (ℚ × F × String × String)
  spans : List (ℚ × ℚ × String)
  hr_bpm : ℚ
  hr_status : String
  hr_color : String
  deriving DecidableEq, Repr

/-- A figure registered in the process-global pyplot registry.  blank
stands for a figure that was created but whose drawing did not complete
(or an empty leftover figure); its exact pixels never matter to the
properties proved here. -/
inductive FigData where
  | blank
  | wave (d : WaveFigData)
  | timeline (d : TimelineFigData)
  deriving DecidableEq, Repr

/-- The opaque external collaborators of the pipeline: library numerics
and the two pickled artifacts.  Each field is a deterministic function,
matching the deterministic behavior of the underlying libraries. -/
structure Externals where
  resample : List ℚ → ℚ → List ℚ
  butter_bandpass_filter : List F → ℚ → List F
  hilbert_env : List F → List F
  find_peaks : List F → ℚ → F → List ℕ
  mfcc : List F → ℚ → List (List ℚ)
  transform : List (List ℚ) → List (List ℚ)
  predict_proba1 : List (List ℚ) → List ℚ
  render : FigData → String

/-- Source lines 31-41 without the opaque librosa call: flatten the
frame-capped MFCC matrix of one cycle. -/
def extract_mfcc (E : Externals) (cycle : List F) (sr : ℚ) : List ℚ :=
  np_flatten (fix_frames (E.mfcc cycle sr) 260)

/-- Source line 95: audio /= np.max(np.abs(audio)).  numpy raises
ValueError on the empty array; a zero maximum (an all-zero waveform) is
not guarded, so every sample becomes the non-finite result of a zero
division and execution continues. -/
def normalize_step (audio : List ℚ) : PyResult (List F) :=
  match np_maxQ (audio.map (fun x => |x|)) with
  | none => .raised .valueError
  | some m => .returned (audio.map (fun x => fdiv x m))

/-- Source lines 90-99: resample to 1000 Hz when needed, normalize,
filter, take the envelope, and detect peaks with distance 0.4 * sr and
height 1.2 * mean(envelope).  Returns the filtered signal, the detected
peak indices, and the working sample rate. -/
def frontend (E : Externals) (audio0 : List ℚ) (sr0 : ℚ) :
    PyResult (List F × List ℕ × ℚ) :=
  let audiosr := if sr0 ≠ 1000 then (E.resample audio0 sr0, (1000 : ℚ))
                 else (audio0, sr0)
  match normalize_step audiosr.1 with
  | .raised e => .raised e
  | .returned audio =>
    let filtered := E.butter_bandpass_filter audio audiosr.2
    let envelope := E.hilbert_env filtered
    let peaks := E.find_peaks envelope ((2/5) * audiosr.2)
      ((np_mean_opt envelope).map (fun m => m * (6/5)))
    .returned (filtered, peaks, audiosr.2)

/-- Everything analyze_heart_sound computes from the signal up to the
per-cycle probabilities (source lines 90-115 before the maximum). -/
structure ScoredState where
  sr : ℚ
  filtered : List F
  peaks : List ℕ
  hr : ℚ
  hr_status : String
  hr_color : String
  cycles : List (List F)
  cycle_times : List (ℚ × ℚ)
  probs : List ℚ
  deriving DecidableEq, Repr

/-- Source lines 90-112: the frontend, the fewer-than-3-peaks early
return of line 101, heart rate and its classification, cycle
segmentation, feature extraction, scaling and scoring. -/
def score_stage (E : Externals) (audio0 : List ℚ) (sr0 : ℚ) :
    StageOut ScoredState :=
  match frontend E audio0 sr0 with
  | .raised e => .raised e
  | .returned fps =>
    let filtered := fps.1
    let peaks := fps.2.1
    let sr := fps.2.2
    if peaks.length < 3 then .errorDict "Not enough heart beats detected"
    else
      let hr := heart_rate_of peaks sr
      let hrc := classify_hr_only hr
      let cycles := build_cycles filtered peaks
      let cycle_times := build_cycle_times peaks sr
      let X := E.transform (cycles.map (fun c => extract_mfcc E c sr))
      let probs := E.predict_proba1 X
      .ok ⟨sr, filtered, peaks, hr, hrc.1, hrc.2, cycles, cycle_times, probs⟩

/-- Source lines 117-131: the risk-tier chain on the maximum probability.
The local variables t and max_amp of lines 130-131 are assigned only in
the final else branch, which the third component records as an Option:
none means the two names stay unbound after the chain. -/
def risk_branch (max_prob : ℚ) (filtered : List F) (sr : ℚ) :
    String × String × Option (List ℚ × F) :=
  if max_prob < 30/100 then ("Normal Heart Sound", "low", none)
  else if max_prob < 45/100 then ("Murmur / Borderline", "medium", none)
  else if max_prob < 60/100 then ("Mild Abnormality", "high", none)
  else ("Severe Abnormality", "critical",
    some ((List.range filtered.length).map (fun i => (i : ℚ) / sr),
      np_maxF filtered))

/-- Source lines 57-84: the timeline figure.  Enumerating probs and
indexing cycle_times raises IndexError when probs is longer. -/
def plot_sound_timeline (cycle_times : List (ℚ × ℚ)) (probs : List ℚ)
    (audio_duration : ℚ) : PyResult TimelineFigData :=
  if probs.length ≤ cycle_times.length then
    .returned ⟨probs.enum.map (fun ip =>
        let se := cycle_times.getD ip.1 (0, 0)
        (se.1, se.2 - se.1, timeline_color ip.2)),
      audio_duration⟩
  else .raised .indexError

/-- Source lines 133-186: the data drawn on the waveform figure, given
the values of t and max_amp read from the critical branch. -/
def mk_wave_fig (st : ScoredState) (t : List ℚ) (max_amp : F) :
    WaveFigData :=
  ⟨t, st.filtered,
    st.peaks.map (fun p => (p : ℚ) / st.sr),
    st.peaks.enum.map (fun ip =>
      ((ip.2 : ℚ) / st.sr, max_amp.map (fun m => (21/20) * m),
        if ip.1 % 2 = 0 then "S1 (Lub)" else "S2 (Dub)",
        if ip.1 % 2 = 0 then "purple" else "darkcyan")),
    (List.range (st.peaks.length - 2)).flatMap (fun i =>
      let s1 := (st.peaks.getD i 0 : ℚ) / st.sr
      let s2 := (st.peaks.getD (i + 1) 0 : ℚ) / st.sr
      let s1n := (st.peaks.getD (i + 2) 0 : ℚ) / st.sr
      let prob := st.probs.getD i 0
      [(s1, s2, if prob > 45/100 then "red" else "lightblue"),
        (s2, s1n, if prob > 45/100 then "darkred" else "plum")]),
    py_round st.hr 1, st.hr_status, st.hr_color⟩

/-- Source lines 199-207: the result dictionary of a successful run,
with its seven keys in order. -/
structure AnalysisResultRecord where
  prediction : String
  probability : ℚ
  heart_rate : ℚ
  hr_status : String
  risk_level : String
  images : List String
  num_cycles : ℕ
  deriving DecidableEq, Repr

/-- Source lines 114-207 after scoring: take the maximum probability, run
the risk chain, then the plotting code.  Line 133 registers a new figure
before line 134 reads t, so a run in which t was never assigned leaves a
blank figure in the registry and raises NameError; the span loop of
lines 151-159 raises IndexError when probs is shorter than the cycle
count; on success the collection loop of lines 190-197 renders every
figure in the registry, stale ones included, and closes them all. -/
def risk_plot_stage (E : Externals) (st : ScoredState) (figs0 : List FigData) :
    PyResult AnalysisResultRecord × List FigData :=
  match np_maxQ st.probs with
  | none => (.raised .valueError, figs0)
  | some max_prob =>
    match risk_branch max_prob st.filtered st.sr with
    | (_, _, none) => (.raised .nameError, figs0 ++ [FigData.blank])
    | (final_prediction, risk_level, some tm) =>
      if st.peaks.length - 2 > st.probs.length then
        (.raised .indexError, figs0 ++ [FigData.blank])
      else
        let waveFig := mk_wave_fig st tm.1 tm.2
        match plot_sound_timeline st.cycle_times st.probs
            ((st.filtered.length : ℚ) / st.sr) with
        | .raised e => (.raised e, figs0 ++ [FigData.wave waveFig, FigData.blank])
        | .returned tl =>
          let images := (figs0 ++ [FigData.wave waveFig, FigData.timeline tl]).map
            E.render
          (.returned ⟨final_prediction, py_round max_prob 3, py_round st.hr 1,
            st.hr_status, risk_level, images, st.cycles.length⟩, [])

/-- The full analyze_heart_sound of source lines 86-207, parameterized by
the opaque externals, the decoded waveform with its native sample rate,
and the pyplot figure registry at entry.  Returns the outcome together
with the registry at exit. -/
def analyze_heart_sound (E : Externals) (audio0 : List ℚ) (sr0 : ℚ)
    (figs0 : List FigData) : StageOut AnalysisResultRecord × List FigData :=
  match score_stage E audio0 sr0 with
  | .raised e => (.raised e, figs0)
  | .errorDict m => (.errorDict m, figs0)
  | .ok st =>
    match risk_plot_stage E st figs0 with
    | (.raised e, s) => (.raised e, s)
    | (.returned r, s) => (.ok r, s)

/-- A stub instantiation of the opaque externals: identity filtering, a
peak detector returning a fixed peak list, and a classifier returning a
fixed probability list, standing in for the pickled artifacts the
specification treats as opaque. -/
def stub_externals (probs : List ℚ) (peaks : List ℕ) : Externals :=
  ⟨fun a _ => a, fun a _ => a, fun a => a, fun _ _ _ => peaks,
    fun _ _ => [], fun X => X, fun _ => probs, fun _ => "png"⟩

/-- A three-sample test waveform with unit maximum amplitude. -/
def audio0 : List ℚ := [1, 1/2, 1/4]

/-- Stub externals of a run whose one cycle scores 0.7 (critical tier,
the only tier that reaches the return statement). -/
def ext0 : Externals := stub_externals [7/10] [0, 2, 4]

/-- Stub externals of the end-to-end scenario: five peaks at exactly
one-second spacing at 1000 Hz and a classifier stub returning constant
probability 0.1 for each of the three cycles. -/
def ext9 : Externals := stub_externals [1/10, 1/10, 1/10] [0, 1000, 2000, 3000, 4000]

/-- Two stub classifiers whose per-cycle probability series differ
(0.611 versus 0.6111) while every value the result record and the
rendered figures depend on agrees. -/
def ext8a : Externals := stub_externals [611/1000] [0, 2, 4]

/-- See ext8a. -/
def ext8b : Externals := stub_externals [6111/10000] [0, 2, 4]

/-- The scored state of the ext0 run on audio0. -/
def st0 : ScoredState :=
  ⟨1000, [some 1, some (1/2), some (1/4)], [0, 2, 4], 30000,
    "Severe Tachycardia", "darkred", [[some 1, some (1/2), some (1/4)]],
    [(0, 1/250)], [7/10]⟩

/-- The scored state of the ext0 run with the classifier replaced by one
returning 0.1, used to exhibit the NameError path at a concrete state. -/
def st1 : ScoredState :=
  ⟨1000, [some 1, some (1/2), some (1/4)], [0, 2, 4], 30000,
    "Severe Tachycardia", "darkred", [[some 1, some (1/2), some (1/4)]],
    [(0, 1/250)], [1/10]⟩

/-- The scored state of the ext9 end-to-end run on audio0. -/
def st9 : ScoredState :=
  ⟨1000, [some 1, some (1/2), some (1/4)], [0, 1000, 2000, 3000, 4000], 60,
    "Normal Heart Rate", "green",
    [[some 1, some (1/2), some (1/4)], [], []],
    [(0, 2), (1, 3), (2, 4)], [1/10, 1/10, 1/10]⟩

/-- The result record returned by the ext0 run on audio0 from an empty
figure registry. -/
def r0 : AnalysisResultRecord :=
  ⟨"Severe Abnormality", 7/10, 30000, "Severe Tachycardia", "critical",
    ["png", "png"], 1⟩

/-- Projection reading the per-cycle probability series out of a scoring
outcome; the empty list stands for a run that never scored. -/
def probs_of (o : StageOut ScoredState) : List ℚ :=
  match o with
  | .ok st => st.probs
  | _ => []


/-- A left fold with max computes an upper bound of the initial value and
all the elements, and it is either the initial value or one of them. -/
theorem foldl_max_spec (xs : List ℚ) : ∀ x : ℚ,
    (xs.foldl max x = x ∨ xs.foldl max x ∈ xs) ∧
      x ≤ xs.foldl max x ∧ ∀ q ∈ xs, q ≤ xs.foldl max x := by
  induction xs with
  | nil => intro x; simp
  | cons a t ih =>
    intro x
    obtain ⟨hmem, hle, hall⟩ := ih (max x a)
    simp only [List.foldl_cons]
    refine ⟨?_, ?_, ?_⟩
    · rcases hmem with hm | hm
      · rcases max_choice x a with hc | hc
        · left; rw [hm, hc]
        · right; rw [hm, hc]; exact List.mem_cons_self a t
      · right; exact List.mem_cons_of_mem a hm
    · exact le_trans (le_max_left x a) hle
    · intro q hq
      rcases List.mem_cons.mp hq with hq | hq
      · subst hq; exact le_trans (le_max_right x q) hle
      · exact hall q hq

/-- The embedded np.max of a nonempty list is a member and an upper
bound, so it is the maximum of the list. -/
theorem np_maxQ_spec (l : List ℚ) (p : ℚ) (h : np_maxQ l = some p) :
    p ∈ l ∧ ∀ q ∈ l, q ≤ p := by
  cases l with
  | nil => simp [np_maxQ] at h
  | cons x xs =>
    simp only [np_maxQ, Option.some.injEq] at h
    subst h
    obtain ⟨hmem, hle, hall⟩ := foldl_max_spec xs x
    refine ⟨?_, ?_⟩
    · rcases hmem with hm | hm
      · rw [hm]; exact List.mem_cons_self x xs
      · exact List.mem_cons_of_mem x hm
    · intro q hq
      rcases List.mem_cons.mp hq with hq | hq
      · subst hq; exact hle
      · exact hall q hq

/-- Successive differences telescope: their sum is last minus first. -/
theorem np_diff_sum (xs : List ℚ) : ∀ x : ℚ,
    (np_diff (x :: xs)).sum = xs.getLastD x - x := by
  induction xs with
  | nil => intro x; simp [np_diff]
  | cons y t ih =>
    intro x
    have h1 : np_diff (x :: y :: t) = (y - x) :: np_diff (y :: t) := rfl
    rw [h1, List.sum_cons, ih y, List.getLastD_cons]
    ring

/-- np.diff shortens a list by one. -/
theorem np_diff_length (xs : List ℚ) : (np_diff xs).length = xs.length - 1 := by
  simp only [np_diff, List.length_map, List.length_zip, List.length_tail]
  omega

/-- Dividing every element by a constant divides the sum. -/
theorem sum_map_div (l : List ℚ) (c : ℚ) :
    (l.map (fun d => d / c)).sum = l.sum / c := by
  induction l with
  | nil => simp
  | cons a t ih => simp [List.sum_cons, ih, add_div]

/-- Casting a list of naturals to rationals commutes with getLastD. -/
theorem getLastD_map_cast (t : List ℕ) : ∀ a : ℕ,
    (t.map (fun p => (Nat.cast p : ℚ))).getLastD (Nat.cast a : ℚ) =
      ((t.getLastD a : ℕ) : ℚ) := by
  induction t with
  | nil => intro a; rfl
  | cons b t ih =>
    intro a
    simp only [List.map_cons, List.getLastD_cons]
    exact ih b

/-- Closed form of the heart-rate computation of line 103: with at least
two peaks, 60 over the mean inter-peak interval in seconds equals
60 * sr * (number of intervals) / (last peak - first peak). -/
theorem heart_rate_closed (peaks : List ℕ) (sr : ℚ) (h2 : 2 ≤ peaks.length) :
    heart_rate_of peaks sr =
      60 * (sr * ((peaks.length - 1 : ℕ) : ℚ)) /
        ((peaks.getLastD 0 : ℚ) - (peaks.headD 0 : ℚ)) := by
  cases peaks with
  | nil => simp at h2
  | cons a t =>
    unfold heart_rate_of np_mean
    have hmap : (a :: t).map (fun p => (Nat.cast p : ℚ)) =
        (Nat.cast a : ℚ) :: t.map (fun p => (Nat.cast p : ℚ)) := rfl
    rw [sum_map_div, hmap, np_diff_sum, getLastD_map_cast]
    have hlen : ((np_diff ((Nat.cast a : ℚ) :: t.map (fun p => (Nat.cast p : ℚ)))).map
        (fun d => d / sr)).length = t.length := by
      rw [List.length_map, np_diff_length]
      simp
    rw [hlen]
    have hlast : (a :: t).getLastD 0 = t.getLastD a := List.getLastD_cons 0 a t
    have hhead : (a :: t).headD 0 = a := rfl
    have hlen2 : ((a :: t).length - 1 : ℕ) = t.length := by simp
    rw [hlast, hhead, hlen2, div_div, div_div_eq_mul_div]

/-- Below the critical threshold, the risk chain leaves the plotting
locals t and max_amp unassigned. -/
theorem risk_branch_unassigned (p : ℚ) (f : List F) (sr : ℚ)
    (h : p < 60/100) :
    ∃ fp rl, risk_branch p f sr = (fp, rl, none) := by
  unfold risk_branch
  by_cases h1 : p < 30/100
  · rw [if_pos h1]; exact ⟨_, _, rfl⟩
  · rw [if_neg h1]
    by_cases h2 : p < 45/100
    · rw [if_pos h2]; exact ⟨_, _, rfl⟩
    · rw [if_neg h2, if_pos h]; exact ⟨_, _, rfl⟩

/-- When the risk chain assigns the plotting locals, it chose the final
else branch: the verdict is Severe Abnormality / critical and the
maximum probability is at least 0.60. -/
theorem risk_branch_assigned (p : ℚ) (f : List F) (sr : ℚ)
    (fp rl : String) (tm : List ℚ × F)
    (h : risk_branch p f sr = (fp, rl, some tm)) :
    fp = "Severe Abnormality" ∧ rl = "critical" ∧ 60/100 ≤ p := by
  unfold risk_branch at h
  by_cases h1 : p < 30/100
  · rw [if_pos h1] at h; simp at h
  · rw [if_neg h1] at h
    by_cases h2 : p < 45/100
    · rw [if_pos h2] at h; simp at h
    · rw [if_neg h2] at h
      by_cases h3 : p < 60/100
      · rw [if_pos h3] at h; simp at h
      · rw [if_neg h3] at h
        simp only [Prod.mk.injEq] at h
        exact ⟨h.1.symm, h.2.1.symm, not_lt.mp h3⟩

/-- A scoring state whose maximum probability is below 0.60 makes the
plotting stage raise NameError at the unconditional read of t, leaving
the freshly created empty figure in the registry. -/
theorem risk_plot_stage_low (E : Externals) (st : ScoredState)
    (figs0 : List FigData) (p : ℚ) (hmax : np_maxQ st.probs = some p)
    (hlt : p < 60/100) :
    risk_plot_stage E st figs0 = (.raised .nameError, figs0 ++ [FigData.blank]) := by
  obtain ⟨fp, rl, hrb⟩ := risk_branch_unassigned p st.filtered st.sr hlt
  unfold risk_plot_stage
  rw [hmax]
  simp only []
  rw [hrb]

/-- Inversion of a successful plotting stage: the registry comes back
empty, the maximum probability reached the critical tier, and the result
record is exactly the dictionary of lines 199-207. -/
theorem risk_plot_stage_success (E : Externals) (st : ScoredState)
    (figs0 s : List FigData) (v : AnalysisResultRecord)
    (h : risk_plot_stage E st figs0 = (.returned v, s)) :
    s = [] ∧ ∃ p tm tl,
      np_maxQ st.probs = some p ∧ 60/100 ≤ p ∧
      risk_branch p st.filtered st.sr = ("Severe Abnormality", "critical", some tm) ∧
      plot_sound_timeline st.cycle_times st.probs
        ((st.filtered.length : ℚ) / st.sr) = .returned tl ∧
      v = ⟨"Severe Abnormality", py_round p 3, py_round st.hr 1, st.hr_status,
        "critical",
        (figs0 ++ [FigData.wave (mk_wave_fig st tm.1 tm.2),
          FigData.timeline tl]).map E.render,
        st.cycles.length⟩ := by
  unfold risk_plot_stage at h
  cases hmax : np_maxQ st.probs with
  | none => rw [hmax] at h; simp only [] at h; simp at h
  | some p =>
    rw [hmax] at h
    simp only [] at h
    rcases hrb : risk_branch p st.filtered st.sr with ⟨fp, rl, tma⟩
    cases tma with
    | none => rw [hrb] at h; simp only [] at h; simp at h
    | some tm =>
      rw [hrb] at h
      simp only [] at h
      obtain ⟨hfp, hrl, hge⟩ := risk_branch_assigned p st.filtered st.sr fp rl tm hrb
      subst hfp; subst hrl
      by_cases hidx : st.peaks.length - 2 > st.probs.length
      · rw [if_pos hidx] at h; simp at h
      · rw [if_neg hidx] at h
        cases hpt : plot_sound_timeline st.cycle_times st.probs
            ((st.filtered.length : ℚ) / st.sr) with
        | raised e => rw [hpt] at h; simp only [] at h; simp at h
        | returned tl =>
          rw [hpt] at h
          simp only [] at h
          simp only [Prod.mk.injEq, PyResult.returned.injEq] at h
          refine ⟨h.2.symm, p, tm, tl, rfl, hge, hrb, rfl, h.1.symm⟩

/-- Inversion of a successful full run: scoring succeeded and the
plotting stage returned the record. -/
theorem analyze_success_cases (E : Externals) (a : List ℚ) (sr0 : ℚ)
    (figs0 : List FigData) (r : AnalysisResultRecord) (s : List FigData)
    (h : analyze_heart_sound E a sr0 figs0 = (.ok r, s)) :
    ∃ st, score_stage E a sr0 = .ok st ∧
      risk_plot_stage E st figs0 = (.returned r, s) := by
  unfold analyze_heart_sound at h
  cases hss : score_stage E a sr0 with
  | raised e => rw [hss] at h; simp only [] at h; simp at h
  | errorDict m => rw [hss] at h; simp only [] at h; simp at h
  | ok st =>
    rw [hss] at h
    simp only [] at h
    rcases hrp : risk_plot_stage E st figs0 with ⟨out, s2⟩
    cases out with
    | raised e => rw [hrp] at h; simp only [] at h; simp at h
    | returned v =>
      rw [hrp] at h
      simp only [] at h
      simp only [Prod.mk.injEq, StageOut.ok.injEq] at h
      exact ⟨st, rfl, by rw [hrp, h.1, h.2]⟩

/-- Inversion of a successful scoring stage: each field of the state is
the value the corresponding source line computes, and at least three
peaks were found. -/
theorem score_stage_ok_inversion (E : Externals) (a : List ℚ) (sr0 : ℚ)
    (st : ScoredState) (h : score_stage E a sr0 = .ok st) :
    st.hr = heart_rate_of st.peaks st.sr ∧
    (st.hr_status, st.hr_color) = classify_hr_only st.hr ∧
    st.cycles = build_cycles st.filtered st.peaks ∧
    st.cycle_times = build_cycle_times st.peaks st.sr ∧
    st.probs = E.predict_proba1 (E.transform
      (st.cycles.map (fun c => extract_mfcc E c st.sr))) ∧
    3 ≤ st.peaks.length := by
  unfold score_stage at h
  cases hfe : frontend E a sr0 with
  | raised e => rw [hfe] at h; simp only [] at h; simp at h
  | returned fps =>
    rw [hfe] at h
    simp only [] at h
    by_cases hlt : fps.2.1.length < 3
    · rw [if_pos hlt] at h; simp at h
    · rw [if_neg hlt] at h
      simp only [StageOut.ok.injEq] at h
      subst h
      exact ⟨rfl, rfl, rfl, rfl, rfl, not_lt.mp hlt⟩

/-- The signal frontend reads only the resampler, the filter, the
envelope and the peak detector from the externals. -/
theorem frontend_ext_eq (E1 E2 : Externals) (a : List ℚ) (sr0 : ℚ)
    (h1 : E1.resample = E2.resample)
    (h2 : E1.butter_bandpass_filter = E2.butter_bandpass_filter)
    (h3 : E1.hilbert_env = E2.hilbert_env)
    (h4 : E1.find_peaks = E2.find_peaks) :
    frontend E1 a sr0 = frontend E2 a sr0 := by
  unfold frontend
  rw [h1, h2, h3, h4]

/-- C1: the overall risk verdict is derived from the maximum of the
per-cycle probability sequence (the embedded np.max of a nonempty
sequence is a member and an upper bound), and the tier chain of lines
117-128 is inclusive on each lower bound: below 0.30 the verdict is
Normal Heart Sound / low, from 0.30 up to but excluding 0.45 it is
Murmur / Borderline / medium, from 0.45 up to but excluding 0.60 it is
Mild Abnormality / high, and from 0.60 on it is Severe Abnormality /
critical. -/
theorem C1_risk_from_max_with_inclusive_bounds
    (probs : List ℚ) (p : ℚ) (filtered : List F) (sr : ℚ)
    (hmax : np_maxQ probs = some p) :
    (p ∈ probs ∧ ∀ q ∈ probs, q ≤ p) ∧
    (p < 30/100 →
      (risk_branch p filtered sr).1 = "Normal Heart Sound" ∧
      (risk_branch p filtered sr).2.1 = "low") ∧
    (30/100 ≤ p → p < 45/100 →
      (risk_branch p filtered sr).1 = "Murmur / Borderline" ∧
      (risk_branch p filtered sr).2.1 = "medium") ∧
    (45/100 ≤ p → p < 60/100 →
      (risk_branch p filtered sr).1 = "Mild Abnormality" ∧
      (risk_branch p filtered sr).2.1 = "high") ∧
    (60/100 ≤ p →
      (risk_branch p filtered sr).1 = "Severe Abnormality" ∧
      (risk_branch p filtered sr).2.1 = "critical") := by
  refine ⟨np_maxQ_spec probs p hmax, ?_, ?_, ?_, ?_⟩
  · intro h1
    unfold risk_branch
    rw [if_pos h1]
    exact ⟨rfl, rfl⟩
  · intro h1 h2
    unfold risk_branch
    rw [if_neg (not_lt.mpr h1), if_pos h2]
    exact ⟨rfl, rfl⟩
  · intro h1 h2
    unfold risk_branch
    rw [if_neg (not_lt.mpr (by linarith)), if_neg (not_lt.mpr h1), if_pos h2]
    exact ⟨rfl, rfl⟩
  · intro h1
    unfold risk_branch
    rw [if_neg (not_lt.mpr (by linarith)), if_neg (not_lt.mpr (by linarith)),
      if_neg (not_lt.mpr h1)]
    exact ⟨rfl, rfl⟩

/-- Witness for C1 at the boundary: a probability set with maximum
exactly 0.30 is classified Murmur / Borderline with tier medium, not
Normal / low. -/
theorem C1_witness :
    (risk_branch (30/100) [] 1000).1 = "Murmur / Borderline" ∧
    (risk_branch (30/100) [] 1000).2.1 = "medium" :=
  (C1_risk_from_max_with_inclusive_bounds [30/100, 1/10] (30/100) [] 1000
    (by norm_num [np_maxQ, max_def])).2.2.1 (by norm_num) (by norm_num)

/-- C2: the heart rate of line 103 is 60 over the mean inter-peak
interval in seconds, equivalently 60 * sr * (number of intervals) over
the span between first and last peak, and the table of lines 43-55
classifies it with the stated boundary inclusions: below 50 Severe
Bradycardia, from 50 up to but excluding 60 Mild Bradycardia, from 60 to
100 both inclusive Normal Heart Rate, above 100 up to 120 Mild
Tachycardia, above 120 up to 150 Moderate Tachycardia, above 150 Severe
Tachycardia. -/
theorem C2_heart_rate_formula_and_table :
    (∀ (peaks : List ℕ) (sr : ℚ), 2 ≤ peaks.length →
      heart_rate_of peaks sr =
        60 * (sr * ((peaks.length - 1 : ℕ) : ℚ)) /
          ((peaks.getLastD 0 : ℚ) - (peaks.headD 0 : ℚ))) ∧
    (∀ hr : ℚ,
      (hr < 50 → (classify_hr_only hr).1 = "Severe Bradycardia") ∧
      (50 ≤ hr → hr < 60 → (classify_hr_only hr).1 = "Mild Bradycardia") ∧
      (60 ≤ hr → hr ≤ 100 → (classify_hr_only hr).1 = "Normal Heart Rate") ∧
      (100 < hr → hr ≤ 120 → (classify_hr_only hr).1 = "Mild Tachycardia") ∧
      (120 < hr → hr ≤ 150 → (classify_hr_only hr).1 = "Moderate Tachycardia") ∧
      (150 < hr → (classify_hr_only hr).1 = "Severe Tachycardia")) := by
  refine ⟨heart_rate_closed, ?_⟩
  intro hr
  refine ⟨?_, ?_, ?_, ?_, ?_, ?_⟩
  · intro h1
    unfold classify_hr_only
    rw [if_pos h1]
  · intro h1 h2
    unfold classify_hr_only
    rw [if_neg (not_lt.mpr h1), if_pos ⟨h1, h2⟩]
  · intro h1 h2
    unfold classify_hr_only
    rw [if_neg (not_lt.mpr (by linarith)),
      if_neg (fun hc => absurd h1 (not_le.mpr hc.2)), if_pos ⟨h1, h2⟩]
  · intro h1 h2
    unfold classify_hr_only
    rw [if_neg (not_lt.mpr (by linarith)),
      if_neg (fun hc => absurd hc.2 (not_lt.mpr (by linarith))),
      if_neg (fun hc => absurd hc.2 (not_le.mpr h1)), if_pos ⟨h1, h2⟩]
  · intro h1 h2
    unfold classify_hr_only
    rw [if_neg (not_lt.mpr (by linarith)),
      if_neg (fun hc => absurd hc.2 (not_lt.mpr (by linarith))),
      if_neg (fun hc => absurd hc.2 (not_le.mpr (by linarith))),
      if_neg (fun hc => absurd hc.1 (not_lt.mpr (by linarith))), if_pos ⟨h1, h2⟩]
  · intro h1
    unfold classify_hr_only
    rw [if_neg (not_lt.mpr (by linarith)),
      if_neg (fun hc => absurd hc.2 (not_lt.mpr (by linarith))),
      if_neg (fun hc => absurd hc.2 (not_le.mpr (by linarith))),
      if_neg (fun hc => absurd hc.2 (not_le.mpr (by linarith))),
      if_neg (fun hc => absurd hc.2 (not_le.mpr (by linarith)))]

/-- Witness for C2: three peaks one second apart at 1000 Hz give exactly
60 BPM, and the boundary rates classify as the table states. -/
theorem C2_witness :
    heart_rate_of [0, 1000, 2000] 1000 =
      60 * (1000 * (([0, 1000, 2000].length - 1 : ℕ) : ℚ)) /
        (([0, 1000, 2000].getLastD 0 : ℚ) - ([0, 1000, 2000].headD 0 : ℚ)) ∧
    (classify_hr_only 60).1 = "Normal Heart Rate" ∧
    (classify_hr_only 50).1 = "Mild Bradycardia" ∧
    (classify_hr_only 100).1 = "Normal Heart Rate" ∧
    (classify_hr_only (1001/10)).1 = "Mild Tachycardia" :=
  ⟨C2_heart_rate_formula_and_table.1 [0, 1000, 2000] 1000 (by decide),
    (C2_heart_rate_formula_and_table.2 60).2.2.1 (by norm_num) (by norm_num),
    (C2_heart_rate_formula_and_table.2 50).2.1 (by norm_num) (by norm_num),
    (C2_heart_rate_formula_and_table.2 100).2.2.1 (by norm_num) (by norm_num),
    (C2_heart_rate_formula_and_table.2 (1001/10)).2.2.2.1 (by norm_num) (by norm_num)⟩

/-- Evaluation of the scoring stage of the concrete critical-tier stub
run, shared by several witnesses below. -/
theorem score_stage_ext0_run : score_stage ext0 audio0 1000 = .ok st0 := by
  norm_num [score_stage, frontend, normalize_step, np_maxQ, np_mean_opt, ext0,
    stub_externals, audio0, fdiv, heart_rate_of, np_mean, np_diff,
    classify_hr_only, build_cycles, build_cycle_times, py_slice, extract_mfcc,
    fix_frames, np_flatten, st0, max_def, abs_eq_max_neg, List.range_succ]

/-- Evaluation of the full concrete critical-tier stub run from an empty
figure registry, shared by several witnesses below. -/
theorem analyze_ext0_run :
    analyze_heart_sound ext0 audio0 1000 [] = (.ok r0, []) := by
  norm_num [analyze_heart_sound, score_stage, frontend, normalize_step, np_maxQ,
    np_mean_opt, ext0, stub_externals, audio0, fdiv, heart_rate_of, np_mean,
    np_diff, classify_hr_only, build_cycles, build_cycle_times, py_slice,
    extract_mfcc, fix_frames, np_flatten, max_def, abs_eq_max_neg,
    List.range_succ, risk_plot_stage, risk_branch, plot_sound_timeline,
    mk_wave_fig, py_round, round_half_even, timeline_color, np_maxF,
    List.enum, List.enumFrom, r0]

/-- C3: a run reaching the scoring stage with maximum per-cycle
probability below 0.60 raises NameError before returning, because t and
max_amp are assigned only in the critical branch yet are read
unconditionally by the plotting code; consequently a result record is
only ever returned with risk tier critical. -/
theorem C3_unbound_plot_locals :
    (∀ (E : Externals) (st : ScoredState) (figs0 : List FigData) (p : ℚ),
      np_maxQ st.probs = some p → p < 60/100 →
      (risk_plot_stage E st figs0).1 = .raised .nameError) ∧
    (∀ (E : Externals) (a : List ℚ) (sr0 : ℚ) (figs0 : List FigData)
      (r : AnalysisResultRecord) (s : List FigData),
      analyze_heart_sound E a sr0 figs0 = (.ok r, s) →
      r.risk_level = "critical") := by
  constructor
  · intro E st figs0 p hmax hlt
    rw [risk_plot_stage_low E st figs0 p hmax hlt]
  · intro E a sr0 figs0 r s h
    obtain ⟨st, _, hrp⟩ := analyze_success_cases E a sr0 figs0 r s h
    obtain ⟨_, p, tm, tl, _, _, _, _, hv⟩ :=
      risk_plot_stage_success E st figs0 s r hrp
    rw [hv]

/-- Witness for C3: a concrete scored state with maximum probability 0.1
makes the plotting stage raise NameError, and the concrete successful
run r0 carries risk tier critical. -/
theorem C3_witness :
    (risk_plot_stage ext0 st1 []).1 = .raised .nameError ∧
    r0.risk_level = "critical" :=
  ⟨C3_unbound_plot_locals.1 ext0 st1 [] (1/10) (by norm_num [st1, np_maxQ])
      (by norm_num),
    C3_unbound_plot_locals.2 ext0 audio0 1000 [] r0 [] analyze_ext0_run⟩

/-- C4: the specification requires silent or empty input to fail with
InvalidAudioError behind a guarded division, but line 95 has no guard
and the code defines no such error: the all-zero waveform divides by a
zero maximum, every sample becomes non-finite, and execution continues
into the filtering stage; the empty waveform instead raises ValueError
inside np.max. -/
theorem C4_no_silent_or_empty_guard :
    normalize_step (List.replicate 4 0) = .returned (List.replicate 4 none) ∧
    normalize_step [] = .raised .valueError ∧
    (∀ E : Externals, frontend E (List.replicate 4 0) 1000 =
      .returned (E.butter_bandpass_filter (List.replicate 4 none) 1000,
        E.find_peaks
          (E.hilbert_env (E.butter_bandpass_filter (List.replicate 4 none) 1000))
          ((2/5) * 1000)
          ((np_mean_opt
            (E.hilbert_env (E.butter_bandpass_filter (List.replicate 4 none) 1000))).map
            (fun m => m * (6/5))),
        1000)) := by
  refine ⟨?_, rfl, ?_⟩
  · norm_num [normalize_step, np_maxQ, fdiv, abs_eq_max_neg, max_def,
      List.replicate_succ]
  · intro E
    norm_num [frontend, normalize_step, np_maxQ, fdiv, abs_eq_max_neg, max_def,
      List.replicate_succ]

/-- C5: when peak detection finds fewer than 3 peaks, the run returns
the error dictionary of line 101 with the registry untouched, and the
outcome does not depend on the feature extractor, the scaler, the
classifier, or the renderer: the run never proceeds to segmentation,
feature extraction, or scoring. -/
theorem C5_insufficient_beats_terminal :
    ∀ (E : Externals) (a : List ℚ) (sr0 : ℚ) (figs0 : List FigData)
      (filtered : List F) (peaks : List ℕ) (sr : ℚ),
      frontend E a sr0 = .returned (filtered, peaks, sr) →
      peaks.length < 3 →
      analyze_heart_sound E a sr0 figs0 =
        (.errorDict "Not enough heart beats detected", figs0) ∧
      ∀ E2 : Externals, E2.resample = E.resample →
        E2.butter_bandpass_filter = E.butter_bandpass_filter →
        E2.hilbert_env = E.hilbert_env → E2.find_peaks = E.find_peaks →
        analyze_heart_sound E2 a sr0 figs0 = analyze_heart_sound E a sr0 figs0 := by
  intro E a sr0 figs0 filtered peaks sr hfe hlt
  have hss : score_stage E a sr0 = .errorDict "Not enough heart beats detected" := by
    unfold score_stage
    rw [hfe]
    simp only []
    rw [if_pos hlt]
  have hana : analyze_heart_sound E a sr0 figs0 =
      (.errorDict "Not enough heart beats detected", figs0) := by
    unfold analyze_heart_sound
    rw [hss]
  refine ⟨hana, ?_⟩
  intro E2 h1 h2 h3 h4
  have hfe2 : frontend E2 a sr0 = .returned (filtered, peaks, sr) := by
    rw [frontend_ext_eq E2 E a sr0 h1 h2 h3 h4, hfe]
  have hss2 : score_stage E2 a sr0 = .errorDict "Not enough heart beats detected" := by
    unfold score_stage
    rw [hfe2]
    simp only []
    rw [if_pos hlt]
  rw [hana]
  unfold analyze_heart_sound
  rw [hss2]

/-- Witness for C5: a stub frontend finding only the two peaks 0 and 1
yields the error dictionary, unchanged when the classifier stub is
replaced by an entirely different one. -/
theorem C5_witness :
    analyze_heart_sound (stub_externals [] [0, 1]) audio0 1000 [] =
      (.errorDict "Not enough heart beats detected", []) ∧
    analyze_heart_sound (stub_externals [9/10] [0, 1]) audio0 1000 [] =
      analyze_heart_sound (stub_externals [] [0, 1]) audio0 1000 [] := by
  have h := C5_insufficient_beats_terminal (stub_externals [] [0, 1]) audio0 1000 []
    [some 1, some (1/2), some (1/4)] [0, 1] 1000
    (by norm_num [frontend, normalize_step, np_maxQ, fdiv, abs_eq_max_neg,
      max_def, stub_externals, audio0])
    (by norm_num)
  exact ⟨h.1, h.2 (stub_externals [9/10] [0, 1]) rfl rfl rfl rfl⟩

/-- C6: with n detected peaks (n at least 3), the segmenter of lines
106-109 builds exactly n - 2 cycles, the i-th being the filtered-signal
slice from peak i to peak i+2 with time span (peak i / sr,
peak i+2 / sr), and the cycle and time-span sequences have equal
length. -/
theorem C6_cycle_segmentation :
    ∀ (filtered : List F) (peaks : List ℕ) (sr : ℚ), 3 ≤ peaks.length →
      (build_cycles filtered peaks).length = peaks.length - 2 ∧
      (build_cycle_times peaks sr).length = peaks.length - 2 ∧
      (build_cycles filtered peaks).length = (build_cycle_times peaks sr).length ∧
      ∀ i, i < peaks.length - 2 →
        (build_cycles filtered peaks).getD i [] =
          py_slice filtered (peaks.getD i 0) (peaks.getD (i + 2) 0) ∧
        (build_cycle_times peaks sr).getD i (0, 0) =
          ((peaks.getD i 0 : ℚ) / sr, (peaks.getD (i + 2) 0 : ℚ) / sr) := by
  intro filtered peaks sr _
  refine ⟨by simp [build_cycles], by simp [build_cycle_times],
    by simp [build_cycles, build_cycle_times], ?_⟩
  intro i hi
  constructor
  · simp [build_cycles, List.getD_eq_getElem?_getD, List.getElem?_map,
      List.getElem?_range, hi]
  · simp [build_cycle_times, List.getD_eq_getElem?_getD, List.getElem?_map,
      List.getElem?_range, hi]

/-- Witness for C6 at five peaks: three cycles, matching time spans. -/
theorem C6_witness :
    (build_cycles [some 1, some (1/2)] [0, 1000, 2000, 3000, 4000]).length = 3 ∧
    (build_cycle_times [0, 1000, 2000, 3000, 4000] 1000).getD 1 (0, 0) =
      (([0, 1000, 2000, 3000, 4000].getD 1 0 : ℚ) / 1000,
        ([0, 1000, 2000, 3000, 4000].getD 3 0 : ℚ) / 1000) := by
  have h := C6_cycle_segmentation [some 1, some (1/2)] [0, 1000, 2000, 3000, 4000]
    1000 (by norm_num)
  exact ⟨h.1, (h.2.2.2 1 (by norm_num)).2⟩

/-- The lengths of a list of lists that are all c sum to c per list. -/
theorem sum_map_length_const (l : List (List ℚ)) (c : ℕ)
    (h : ∀ r ∈ l, r.length = c) : (l.map List.length).sum = l.length * c := by
  induction l with
  | nil => simp
  | cons a t ih =>
    simp only [List.map_cons, List.sum_cons, List.length_cons]
    rw [h a (List.mem_cons_self a t),
      ih (fun r hr => h r (List.mem_cons_of_mem a hr))]
    ring

/-- C7: for a rectangular 13-row MFCC matrix of any natural frame count
T, the frame cap of lines 39-40 truncates the tail when T exceeds 260
and right-pads every row with zero frames up to 260 otherwise, so the
flattened feature vector always has exactly 13 * 260 entries. -/
theorem C7_fixed_feature_length :
    ∀ (m : List (List ℚ)) (T : ℕ), m.length = 13 →
      (∀ r ∈ m, r.length = T) →
      (np_flatten (fix_frames m 260)).length = 13 * 260 ∧
      (260 < T → fix_frames m 260 = m.map (fun r => r.take 260)) ∧
      (T ≤ 260 → fix_frames m 260 =
        m.map (fun r => r ++ List.replicate (260 - T) 0)) := by
  intro m T h13 hT
  have hhead : (m.headD []).length = T := by
    cases m with
    | nil => simp at h13
    | cons a t => exact hT a (List.mem_cons_self a t)
  have hrows : ∀ r ∈ fix_frames m 260, r.length = 260 := by
    intro r hr
    unfold fix_frames at hr
    rw [hhead] at hr
    by_cases hgt : T > 260
    · rw [if_pos hgt] at hr
      obtain ⟨row, hrow, heq⟩ := List.mem_map.mp hr
      rw [← heq, List.length_take, hT row hrow]
      omega
    · rw [if_neg hgt] at hr
      obtain ⟨row, hrow, heq⟩ := List.mem_map.mp hr
      rw [← heq, List.length_append, hT row hrow, List.length_replicate]
      omega
  have hlenf : (fix_frames m 260).length = m.length := by
    unfold fix_frames
    rw [hhead]
    by_cases hgt : T > 260
    · rw [if_pos hgt, List.length_map]
    · rw [if_neg hgt, List.length_map]
  refine ⟨?_, ?_, ?_⟩
  · unfold np_flatten
    rw [List.length_flatten, sum_map_length_const (fix_frames m 260) 260 hrows,
      hlenf, h13]
  · intro hgt
    unfold fix_frames
    rw [hhead, if_pos hgt]
  · intro hle
    unfold fix_frames
    rw [hhead, if_neg (not_lt.mpr hle)]

/-- Witness for C7 on a 13-by-2 matrix: the flattened vector has 3380
entries and the rows are padded with 258 zero frames. -/
theorem C7_witness :
    (np_flatten (fix_frames (List.replicate 13 [5, 7]) 260)).length = 13 * 260 ∧
    fix_frames (List.replicate 13 [5, 7]) 260 =
      (List.replicate 13 [5, 7]).map (fun r => r ++ List.replicate 258 0) := by
  have h := C7_fixed_feature_length (List.replicate 13 [5, 7]) 2
    (by simp) (by intro r hr; rw [List.eq_of_mem_replicate hr]; rfl)
  exact ⟨h.1, h.2.2 (by norm_num)⟩

/-- C8 counterexample: two runs whose per-cycle probability series
differ (0.611 versus 0.6111) produce identical output records, so the
record cannot contain the full per-cycle probability series; the record
holds only the rendered images, the rounded maximum, and the threshold
classifications. -/
theorem C8_counterexample :
    (analyze_heart_sound ext8a audio0 1000 []).1 =
      (analyze_heart_sound ext8b audio0 1000 []).1 ∧
    probs_of (score_stage ext8a audio0 1000) ≠
      probs_of (score_stage ext8b audio0 1000) := by
  constructor
  · norm_num [analyze_heart_sound, score_stage, frontend, normalize_step,
      np_maxQ, np_mean_opt, ext8a, ext8b, stub_externals, audio0, fdiv,
      heart_rate_of, np_mean, np_diff, classify_hr_only, build_cycles,
      build_cycle_times, py_slice, extract_mfcc, fix_frames, np_flatten,
      max_def, abs_eq_max_neg, List.range_succ, risk_plot_stage, risk_branch,
      plot_sound_timeline, mk_wave_fig, py_round, round_half_even,
      timeline_color, np_maxF, List.enum, List.enumFrom]
  · norm_num [probs_of, score_stage, frontend, normalize_step, np_maxQ,
      np_mean_opt, ext8a, ext8b, stub_externals, audio0, fdiv, heart_rate_of,
      np_mean, np_diff, classify_hr_only, build_cycles, build_cycle_times,
      py_slice, extract_mfcc, fix_frames, np_flatten, max_def, abs_eq_max_neg,
      List.range_succ]

/-- C8 as amended: on success the output record carries the heart-rate
classification, the heart rate rounded to 1 decimal, the cycle count,
the maximum per-cycle probability rounded to 3 decimals with the risk
classification derived from it, and base64 images rendered inside the
pipeline from the waveform and timeline figures; the raw per-cycle
series itself is not a field of the record. -/
theorem C8_result_record_contents :
    ∀ (E : Externals) (a : List ℚ) (sr0 : ℚ) (figs0 s : List FigData)
      (st : ScoredState) (r : AnalysisResultRecord),
      score_stage E a sr0 = .ok st →
      analyze_heart_sound E a sr0 figs0 = (.ok r, s) →
      r.hr_status = st.hr_status ∧
      r.heart_rate = py_round st.hr 1 ∧
      r.num_cycles = st.cycles.length ∧
      (∃ p, np_maxQ st.probs = some p ∧ r.probability = py_round p 3 ∧
        r.prediction = (risk_branch p st.filtered st.sr).1 ∧
        r.risk_level = (risk_branch p st.filtered st.sr).2.1) ∧
      (∃ w tl, r.images =
        (figs0 ++ [FigData.wave w, FigData.timeline tl]).map E.render) := by
  intro E a sr0 figs0 s st r hss hana
  obtain ⟨st2, hss2, hrp⟩ := analyze_success_cases E a sr0 figs0 r s hana
  rw [hss] at hss2
  injection hss2 with he
  subst he
  obtain ⟨_, p, tm, tl, hmax, _, hrb, _, hv⟩ :=
    risk_plot_stage_success E st figs0 s r hrp
  subst hv
  refine ⟨rfl, rfl, rfl, ⟨p, hmax, rfl, ?_, ?_⟩,
    ⟨mk_wave_fig st tm.1 tm.2, tl, rfl⟩⟩
  · rw [hrb]
  · rw [hrb]

/-- Witness for C8: the concrete critical run, with its record fields. -/
theorem C8_witness :
    r0.hr_status = st0.hr_status ∧
    r0.heart_rate = py_round st0.hr 1 ∧
    r0.num_cycles = st0.cycles.length ∧
    (∃ p, np_maxQ st0.probs = some p ∧ r0.probability = py_round p 3 ∧
      r0.prediction = (risk_branch p st0.filtered st0.sr).1 ∧
      r0.risk_level = (risk_branch p st0.filtered st0.sr).2.1) ∧
    (∃ w tl, r0.images =
      ([] ++ [FigData.wave w, FigData.timeline tl]).map ext0.render) :=
  C8_result_record_contents ext0 audio0 1000 [] [] st0 r0
    score_stage_ext0_run analyze_ext0_run

/-- C9: any run whose detector finds the five peaks 0, 1000, 2000, 3000,
4000 at 1000 Hz and whose classifier scores every cycle 0.1 does compute
heart rate exactly 60 BPM, status Normal Heart Rate, and 3 cycles, but
then raises NameError at the plotting stage instead of returning the
Normal Heart Sound / low record the specification expects, because 0.1
is below the critical threshold and t was never assigned. -/
theorem C9_end_to_end_scenario_crashes :
    ∀ (E : Externals) (a : List ℚ) (sr0 : ℚ) (figs0 : List FigData)
      (st : ScoredState),
      score_stage E a sr0 = .ok st →
      st.peaks = [0, 1000, 2000, 3000, 4000] →
      st.sr = 1000 →
      st.probs = [1/10, 1/10, 1/10] →
      st.hr = 60 ∧ st.hr_status = "Normal Heart Rate" ∧
      st.cycles.length = 3 ∧ st.cycle_times.length = 3 ∧
      analyze_heart_sound E a sr0 figs0 =
        (.raised .nameError, figs0 ++ [FigData.blank]) := by
  intro E a sr0 figs0 st hss hpk hsr hpr
  obtain ⟨hhr, hhrstat, hcy, hct, _, _⟩ := score_stage_ok_inversion E a sr0 st hss
  have hhr60 : st.hr = 60 := by
    rw [hhr, hpk, hsr]
    norm_num [heart_rate_of, np_mean, np_diff]
  have hstat : st.hr_status = "Normal Heart Rate" := by
    rw [hhr60] at hhrstat
    have h2 : classify_hr_only 60 = ("Normal Heart Rate", "green") := by
      norm_num [classify_hr_only]
    rw [h2] at hhrstat
    exact (Prod.ext_iff.mp hhrstat).1
  have hmax : np_maxQ st.probs = some (1/10) := by
    rw [hpr]
    norm_num [np_maxQ, max_def]
  refine ⟨hhr60, hstat, ?_, ?_, ?_⟩
  · rw [hcy, hpk]
    simp [build_cycles]
  · rw [hct, hpk]
    simp [build_cycle_times]
  · unfold analyze_heart_sound
    rw [hss]
    simp only []
    rw [risk_plot_stage_low E st figs0 (1/10) hmax (by norm_num)]

/-- Witness for C9: the concrete end-to-end stub run computes the
expected intermediate values and then raises NameError. -/
theorem C9_witness :
    st9.hr = 60 ∧ st9.hr_status = "Normal Heart Rate" ∧
    st9.cycles.length = 3 ∧ st9.cycle_times.length = 3 ∧
    analyze_heart_sound ext9 audio0 1000 [] =
      (.raised .nameError, [FigData.blank]) :=
  C9_end_to_end_scenario_crashes ext9 audio0 1000 [] st9
    (by norm_num [score_stage, frontend, normalize_step, np_maxQ, np_mean_opt,
      ext9, stub_externals, audio0, fdiv, heart_rate_of, np_mean, np_diff,
      classify_hr_only, build_cycles, build_cycle_times, py_slice, extract_mfcc,
      fix_frames, np_flatten, st9, max_def, abs_eq_max_neg, List.range_succ])
    rfl rfl rfl

/-- C10 counterexample: with the waveform and both artifacts fixed, a
run started from an empty pyplot registry and a run started from a
registry holding one leftover figure return different records (the
leftover figure is rendered into the images list of the second run), so
runs are not bit-identical functions of waveform and artifacts alone. -/
theorem C10_counterexample :
    (analyze_heart_sound ext0 audio0 1000 []).1 ≠
      (analyze_heart_sound ext0 audio0 1000 [FigData.blank]).1 := by
  norm_num [analyze_heart_sound, score_stage, frontend, normalize_step, np_maxQ,
    np_mean_opt, ext0, stub_externals, audio0, fdiv, heart_rate_of, np_mean,
    np_diff, classify_hr_only, build_cycles, build_cycle_times, py_slice,
    extract_mfcc, fix_frames, np_flatten, max_def, abs_eq_max_neg,
    List.range_succ, risk_plot_stage, risk_branch, plot_sound_timeline,
    mk_wave_fig, py_round, round_half_even, timeline_color, np_maxF,
    List.enum, List.enumFrom]

/-- C10 as amended: the pipeline is deterministic relative to the pyplot
figure registry: two successful runs with the same waveform, artifacts,
and entry registry return the same record, and every successful run
leaves the registry empty; runs from different registry states can
differ in their images list. -/
theorem C10_determinism_relative_to_registry :
    ∀ (E : Externals) (a : List ℚ) (sr0 : ℚ) (figs1 figs2 : List FigData)
      (r1 r2 : AnalysisResultRecord) (s1 s2 : List FigData),
      analyze_heart_sound E a sr0 figs1 = (.ok r1, s1) →
      analyze_heart_sound E a sr0 figs2 = (.ok r2, s2) →
      (figs1 = figs2 → r1 = r2) ∧ s1 = [] ∧ s2 = [] := by
  intro E a sr0 figs1 figs2 r1 r2 s1 s2 h1 h2
  obtain ⟨stx, _, hrp1⟩ := analyze_success_cases E a sr0 figs1 r1 s1 h1
  obtain ⟨sty, _, hrp2⟩ := analyze_success_cases E a sr0 figs2 r2 s2 h2
  refine ⟨?_, (risk_plot_stage_success E stx figs1 s1 r1 hrp1).1,
    (risk_plot_stage_success E sty figs2 s2 r2 hrp2).1⟩
  intro heq
  subst heq
  rw [h1] at h2
  simpa using (Prod.ext_iff.mp h2).1

/-- Witness for C10: the concrete critical run applied twice from the
empty registry. -/
theorem C10_witness :
    (([] : List FigData) = [] → r0 = r0) ∧
    ([] : List FigData) = [] ∧ ([] : List FigData) = [] :=
  C10_determinism_relative_to_registry ext0 audio0 1000 [] [] r0 r0 [] []
    analyze_ext0_run analyze_ext0_run
